import Mathlib

/-!
Shallow embedding of the arangodantic repository (query compilers, cursor,
persistence state machine, graph save, lock backend), together with theorems
checking the natural-language specification against it.

Sources embedded:
  - arangodantic/utils.py       (build_filters, split_field, build_sort)
  - arangodantic/operators.py   (Operators enum / comparison_operators table)
  - arangodantic/cursor.py      (ArangodanticCursor.to_list)
  - arangodantic/models.py      (Model.save, Model.find_one)
  - arangodantic/graphs.py      (Graph.save key handling)
  - arangodantic/backends/asyncer_python_arango_backend.py (acquire loop)
-/

namespace Arangodantic

/-- Python runtime values that can appear as filter operands / bind-variable
values.  `modelRef id` stands for an arangodantic `Model` instance passed as an
operand; its field carries `model.id_` (`None` when the model has no key).
Python dicts never appear as operand values here: in `build_filters` a dict at
the top level of a filter entry is an operator-map, handled by `FilterExpr`. -/
inductive Value where
  | null
  | bool (b : Bool)
  | int (n : Int)
  | str (s : String)
  | listv (l : List Value)
  | modelRef (id : Option String)

/-- One filter entry value in `build_filters`: either a literal value
(implicit equality) or a mapping from operator symbol to operand
(`expr.items()` in insertion order). -/
inductive FilterExpr where
  | lit (v : Value)
  | ops (pairs : List (String × Value))

/-- Exceptions that the embedded code can raise.  The first block are Python
built-ins, the second the classes of `arangodantic/exceptions.py`, the third
the `python-arango` driver's server-error classes (external collaborator,
carrying the ArangoDB numeric error code).

Modelled from the spec: `unsupportedOperatorError` and
`invalidSortDirectionError` appear in the spec's error taxonomy (section 7) but
no such classes exist anywhere in the repository; the constructors are included
only so that the spec's claims about them are statable. -/
inductive PyErr where
  | notImplementedError (msg : String)
  | valueError (msg : String)
  | uniqueConstraintError (msg : String)
  | modelNotFoundError (msg : String)
  | multipleModelsFoundError (msg : String)
  | documentInsertError (code : Int) (msg : String)
  | documentUpdateError (code : Int) (msg : String)
  | documentReplaceError (code : Int) (msg : String)
  | arangoServerError (code : Int) (msg : String)
  | unsupportedOperatorError (msg : String)
  | invalidSortDirectionError (msg : String)
deriving DecidableEq

/-- `dict.__setitem__` / single-key `dict.update` semantics for an association
list: overwriting an existing key keeps its position, a new key is appended. -/
def assocSet {α : Type} : List (String × α) → String → α → List (String × α)
  | [], k, v => [(k, v)]
  | (k0, v0) :: rest, k, v =>
    if k0 = k then (k0, v) :: rest else (k0, v0) :: assocSet rest k v

/-- `dict.update(other)` semantics: set every key of `other` in order. -/
def assocSetMany {α : Type} : List (String × α) → List (String × α) → List (String × α)
  | m, [] => m
  | m, (k, v) :: rest => assocSetMany (assocSet m k v) rest

/-- Key lookup in an association list (`k in d` / `d[k]`). -/
def assocFind {α : Type} : List (String × α) → String → Option α
  | [], _ => none
  | (k0, v0) :: rest, k => if k0 = k then some v0 else assocFind rest k

/-! ## Field-path splitter (utils.py, split_field) -/

/-- The dot separator test used throughout `split_field`. -/
def isDot (c : Char) : Bool := c = '.'

/-- `re.sub(r"\.+", ".", name)`: collapse every run of consecutive dots to a
single dot (the first dot of a run absorbs into the next). -/
def collapseDots : List Char → List Char
  | [] => []
  | [c] => [c]
  | a :: b :: rest =>
    if a = '.' ∧ b = '.' then collapseDots (b :: rest)
    else a :: collapseDots (b :: rest)

/-- `name.strip(".")`: drop leading and trailing dots. -/
def stripDots (l : List Char) : List Char :=
  List.rdropWhile isDot (List.dropWhile isDot l)

/-- Python `str.split(".")`: split at every dot; the empty string yields a
single empty part, like `"".split(".") == [""]`. -/
def pySplitDots : List Char → List (List Char)
  | [] => [[]]
  | c :: rest =>
    if c = '.' then [] :: pySplitDots rest
    else
      match pySplitDots rest with
      | [] => [[c]]
      | p :: ps => (c :: p) :: ps

/-- The enumeration loop of `split_field`: part `i` becomes the new path
component `"@<pre>_<i>"` and the bind variable `(<pre>_<i>, part)`. -/
def splitFieldAux (pre : String) : Nat → List (List Char) → List String × List (String × String)
  | _, [] => ([], [])
  | i, part :: rest =>
    let bv := pre ++ "_" ++ toString i
    let r := splitFieldAux pre (i + 1) rest
    (("@" ++ bv) :: r.1, (bv, String.mk part) :: r.2)

/-- `split_field(name, prefix)` from utils.py: normalize the dotted path
(collapse dot runs, strip outer dots), split it at dots, and turn every
segment into its own bind variable; returns the bound path expression
(segments joined by ".") and the bind-variable map. -/
def split_field (name pre : String) : String × List (String × String) :=
  let parts := pySplitDots (stripDots (collapseDots name.toList))
  let r := splitFieldAux pre 0 parts
  (String.intercalate "." r.1, r.2)

/-- The normalized form of a field path, i.e. the two normalization steps
`split_field` itself performs before splitting. -/
def normalizePath (name : String) : String :=
  String.mk (stripDots (collapseDots name.toList))

/-! ## Predicate compiler (utils.py, build_filters) -/

/-- The operator table defined locally inside `build_filters` in utils.py
(only the six scalar comparisons), mapping each symbol to the a-z token used
in bind-variable names. -/
def utilsComparisonOperators : List (String × String) :=
  [("<", "lt"), ("<=", "lte"), (">", "gt"), (">=", "gte"), ("!=", "ne"), ("==", "eq")]

/-- The symbols of the `Operators` enum of operators.py, in source order (the
keys of its module-level `comparison_operators` table).  `ALL_EQ` and `ALL_NE`
are written `"=="` and `"!="` in the source and therefore alias `EQ`/`NE`. -/
def operatorSymbols : List String :=
  ["==", "!=", "<", "<=", ">", ">=", "IN", "NOT IN", "LIKE", "NOT LIKE",
   "=~", "!~", "NOT", "ALL IN", "NONE IN", "ANY IN",
   "ANY ==", "ANY !=", "ANY <", "ANY <=", "ANY >", "ANY >=",
   "==", "!=", "ALL <", "ALL <=", "ALL >", "ALL >=",
   "NONE ==", "NONE !=", "NONE <", "NONE <=", "NONE >", "NONE >="]

/-- `if isinstance(value, Model): value = value.id_` in build_filters. -/
def resolveModel : Value → Value
  | .modelRef none => .null
  | .modelRef (some s) => .str s
  | .null => .null
  | .bool b => .bool b
  | .int n => .int n
  | .str s => .str s
  | .listv l => .listv l

/-- The normalization at the top of the filter loop: a non-dict literal value
becomes the explicit operator-map with implicit equality. -/
def exprItems : FilterExpr → List (String × Value)
  | .lit v => [("==", v)]
  | .ops pairs => pairs

/-- The inner `for operator, value in expr.items()` loop of `build_filters`
for one filter entry, threading the accumulated filter list and bind-variable
map. -/
def processOpsAux (instanceName field bvPre : String)
    (acc : List String × List (String × Value)) :
    List (String × Value) → Except PyErr (List String × List (String × Value))
  | [] => .ok acc
  | (op, v) :: rest =>
    match assocFind utilsComparisonOperators op with
    | none =>
      .error (.notImplementedError ("Support for \x27" ++ op ++ "\x27 not implemented"))
    | some tok =>
      let sf := split_field field bvPre
      let bvs1 := assocSetMany acc.2 (sf.2.map fun kv => (kv.1, Value.str kv.2))
      let valueBindVar := bvPre ++ "_" ++ tok
      let bvs2 := assocSet bvs1 valueBindVar (resolveModel v)
      let frag := instanceName ++ "." ++ sf.1 ++ " " ++ op ++ " @" ++ valueBindVar
      processOpsAux instanceName field bvPre (acc.1 ++ [frag], bvs2) rest

/-- The outer `for i, (field, expr) in enumerate(filters.items())` loop. -/
def buildFiltersAux (instanceName : String)
    (acc : List String × List (String × Value)) :
    Nat → List (String × FilterExpr) → Except PyErr (List String × List (String × Value))
  | _, [] => .ok acc
  | i, (field, e) :: rest =>
    match processOpsAux instanceName field ("field_" ++ toString i) acc (exprItems e) with
    | .error err => .error err
    | .ok acc2 => buildFiltersAux instanceName acc2 (i + 1) rest

/-- `build_filters(filters, instance_name)` from utils.py: turn the filter
mapping into a list of AQL FILTER fragments and the bind-variable map.  An
operator symbol outside the local six-entry table raises
`NotImplementedError` with a message naming the unsupported symbol. -/
def build_filters (filters : List (String × FilterExpr)) (instanceName : String) :
    Except PyErr (List String × List (String × Value)) :=
  buildFiltersAux instanceName ([], []) 0 filters

/-! ## Sort compiler (utils.py, build_sort) -/

/-- Modelled from the spec: `arangodantic/directions.py` is imported by
utils.py and `__init__.py` (`ASCENDING`, `DESCENDING`, `DIRECTIONS`) but the
file is not under src/.  Spec section 4.2: direction must be one of the two
recognized tokens (ascending/descending); the docstring of `find` in
models.py shows the ascending token as `"ASC"` (`[("name", "ASC")]`), so the
tuple is the two AQL direction keywords. -/
def DIRECTIONS : List String := ["ASC", "DESC"]

/-- The `for i, (field, direction) in enumerate(sort)` loop of `build_sort`. -/
def buildSortAux (instanceName : String) :
    Nat → List String × List (String × String) → List (String × String) →
    Except PyErr (List String × List (String × String))
  | _, acc, [] => .ok acc
  | i, acc, (field, direction) :: rest =>
    if direction ∈ DIRECTIONS then
      let sf := split_field field ("sort_" ++ toString i)
      buildSortAux instanceName (i + 1)
        (acc.1 ++ [instanceName ++ "." ++ sf.1 ++ " " ++ direction],
         assocSetMany acc.2 sf.2) rest
    else
      .error (.valueError
        ("Invalid sort direction \x27" ++ direction ++ "\x27 for field " ++ field))

/-- `build_sort(instance_name, sort)` from utils.py: emit the "SORT ..." AQL
clause (empty string for an empty spec) and its bind variables; an invalid
direction raises `ValueError`. -/
def build_sort (instanceName : String) (sort : List (String × String)) :
    Except PyErr (String × List (String × String)) :=
  match buildSortAux instanceName 0 ([], []) sort with
  | .error e => .error e
  | .ok acc =>
    .ok (if acc.1.isEmpty then "" else "SORT " ++ String.intercalate ", " acc.1, acc.2)

/-! ## Cursor (cursor.py, ArangodanticCursor.to_list) -/

/-- The state of a `python-arango` `Cursor` (external collaborator): the batch
currently fetched client-side plus the batches still held server-side.
`α` is the raw item type (the driver yields raw documents). -/
structure PyCursor (α : Type) where
  batch : List α
  pending : List (List α)

/-- `Cursor.next()` of the driver: pop from the current batch; when the batch
is empty and more batches exist server-side, fetch the next one and pop from
it; when nothing is left, raise StopIteration (modelled as `none`). -/
def cursorNext {α : Type} : PyCursor α → Option (α × PyCursor α)
  | ⟨x :: rest, pend⟩ => some (x, ⟨rest, pend⟩)
  | ⟨[], []⟩ => none
  | ⟨[], b :: bs⟩ =>
    match b with
    | [] => none
    | x :: rest => some (x, ⟨rest, bs⟩)

/-- `for i in range(n): batch.append(cursor.next())` — pop `n` items. -/
def popN {α : Type} : Nat → PyCursor α → List α
  | 0, _ => []
  | n + 1, c =>
    match cursorNext c with
    | none => []
    | some (x, c2) => x :: popN n c2

/-- `ArangodanticCursor.to_list` as written in cursor.py: its `_get_batch`
helper iterates exactly `len(cursor.batch())` times over `cursor.next()`,
returning the raw items of the currently fetched batch (the commented-out
"original code" `[i async for i in cursor]` is not what runs). -/
def to_list {α : Type} (c : PyCursor α) : List α :=
  popN c.batch.length c

/-- The full result sequence behind a cursor: the fetched batch followed by
every server-side batch, in order. -/
def allItems {α : Type} (c : PyCursor α) : List α :=
  c.batch ++ c.pending.flatten

/-! ## find_one (models.py, Model.find_one) -/

/-- `Model.find_one` from models.py.  `clsName` is `cls.__name__`; `decode`
is the pydantic decoding `cls(**rawItem)`; `fetch limit` stands for
`(await cls.find(filters=..., limit=limit, sort=...)).to_list()`, the raw
result list the store hands back for the issued limit.  The body follows the
source: `limit = 1`, bumped to 2 when `raise_on_multiple`; then the
multiple-match check, then `results[0]` with `IndexError` translated to
`ModelNotFoundError`. -/
def find_one {α β : Type} (clsName : String) (decode : α → β)
    (raiseOnMultiple : Bool) (fetch : Nat → List α) : Except PyErr β :=
  let limit : Nat := if raiseOnMultiple then 2 else 1
  let results := fetch limit
  if raiseOnMultiple = true ∧ 1 < results.length then
    .error (.multipleModelsFoundError
      ("Multiple \x27" ++ clsName ++ "\x27 matched given filters"))
  else
    match results with
    | [] => .error (.modelNotFoundError ("No \x27" ++ clsName ++ "\x27 matched given filters"))
    | d :: _ => .ok (decode d)

/-- The `findOne` contract as worded by the spec (section 4.3): page size 1,
or 2 when `raiseOnMultiple`; zero results fail with `ModelNotFoundError`;
more than one result with `raiseOnMultiple` fails with
`MultipleModelsFoundError`; otherwise the first result is returned. -/
def findOneSpec {α β : Type} (clsName : String) (decode : α → β)
    (raiseOnMultiple : Bool) (fetch : Nat → List α) : Except PyErr β :=
  let results := fetch (if raiseOnMultiple then 2 else 1)
  match results with
  | [] => .error (.modelNotFoundError ("No \x27" ++ clsName ++ "\x27 matched given filters"))
  | d :: rest =>
    if raiseOnMultiple = true ∧ rest.length ≠ 0 then
      .error (.multipleModelsFoundError
        ("Multiple \x27" ++ clsName ++ "\x27 matched given filters"))
    else .ok (decode d)

/-! ## Model.save (models.py) -/

/-- Truthiness of an `Optional[str]`: `None` and `""` are falsy. -/
def pyFalsyStr : Option String → Bool
  | none => true
  | some s => s = ""

/-- ArangoDB error code for "unique constraint violated" (literal `1210` in
models.py; `ERROR_ARANGO_UNIQUE_CONSTRAINT_VIOLATED` in the backend). -/
def ERROR_ARANGO_UNIQUE_CONSTRAINT_VIOLATED : Int := 1210

/-- ArangoDB error code for "conflict" (backend constant). -/
def ERROR_ARANGO_CONFLICT : Int := 1200

/-- The external `python-arango` driver reports a failed
`StandardCollection.update` call as a `DocumentUpdateError` carrying the
server's numeric error code; `DocumentReplaceError` is raised only by
`replace`.  models.py calls `update` in the persisted branch of `save`. -/
def driverUpdateFailure (code : Int) (msg : String) : PyErr :=
  .documentUpdateError code msg

/-- The persisted ("update existing document") branch of `Model.save`
(models.py lines 159-174) after the pre-save hook: run the store update and
translate errors exactly as the source's `except DocumentReplaceError` clause
does.  `updateResult` is the outcome of `self.get_collection().update(...)`:
on success the response's `("_key", "_rev")` pair.  On success the model's
key/revision are set from the response; on an exception nothing is assigned. -/
def saveUpdateBranch (clsName : String)
    (updateResult : Except PyErr (String × String)) : Except PyErr (String × String) :=
  match updateResult with
  | .ok resp => .ok resp
  | .error (.documentReplaceError code msg) =>
    if code = ERROR_ARANGO_UNIQUE_CONSTRAINT_VIOLATED then
      .error (.uniqueConstraintError
        ("Unique constraint violated for \x27" ++ clsName ++ "\x27\n" ++ msg))
    else .error (.documentReplaceError code msg)
  | .error e => .error e

/-- For comparison: the transient ("insert new document") branch's error
translation (models.py lines 150-158), whose `except DocumentInsertError`
clause does match the exception `insert` raises. -/
def saveInsertErrorTranslation (clsName : String) (e : PyErr) : PyErr :=
  match e with
  | .documentInsertError code msg =>
    if code = ERROR_ARANGO_UNIQUE_CONSTRAINT_VIOLATED then
      .uniqueConstraintError
        ("Unique constraint violated for \x27" ++ clsName ++ "\x27\n" ++ msg)
    else .documentInsertError code msg
  | e => e

/-- Result of the key-assignment step at the top of the transient branch of
a save: the (possibly newly assigned) key and whether the configured key
generator was invoked. -/
structure KeyGenOutcome where
  key : Option String
  invoked : Bool
deriving DecidableEq

/-- The key-assignment step of `Model.save` (models.py lines 136-142):
inside `if self.rev_ == ""`, the generator runs only under
`not self.key_ and CONF.key_gen and not isinstance(self, EdgeModel)`.
`keyGen` carries the string a configured generator would produce
(`str(CONF.key_gen())`), `none` when no generator is configured. -/
def modelSaveAssignKey (isEdge : Bool) (rev : Option String) (key : Option String)
    (keyGen : Option String) : KeyGenOutcome :=
  if rev = some "" then
    if pyFalsyStr key then
      match keyGen with
      | some g => if isEdge then ⟨key, false⟩ else ⟨some g, true⟩
      | none => ⟨key, false⟩
    else ⟨key, false⟩
  else ⟨key, false⟩

/-- The key-assignment step of `Graph.save` (graphs.py lines 73-77): inside
`if not model.rev_`, the generator runs under `not model.key_ and
CONF.key_gen` — with no edge-model exclusion. -/
def graphSaveAssignKey (rev : Option String) (key : Option String)
    (keyGen : Option String) : KeyGenOutcome :=
  if pyFalsyStr rev then
    if pyFalsyStr key then
      match keyGen with
      | some g => ⟨some g, true⟩
      | none => ⟨key, false⟩
    else ⟨key, false⟩
  else ⟨key, false⟩

/-! ## Lock backend (backends/asyncer_python_arango_backend.py, acquire) -/

/-- An `ArangoServerError` raised by the driver from the lock collection's
INSERT: the numeric error code and the message. -/
structure ArangoErr where
  code : Int
  msg : String
deriving DecidableEq

/-- `ShylockAsyncerArangoDBBackend.acquire`: the `while True` loop, one list
element per INSERT attempt (`.ok ()` = the document was inserted, `.error e` =
the driver raised `e`).  The result pairs the outcome with the number of
`POLL_DELAY` sleeps performed; `none` means the given attempts were exhausted
with the loop still running (blocked). -/
def acquire (block : Bool) : List (Except ArangoErr Unit) → Option (Except ArangoErr Bool × Nat)
  | [] => none
  | attempt :: rest =>
    match attempt with
    | .ok _ => some (.ok true, 0)
    | .error e =>
      if e.code = ERROR_ARANGO_UNIQUE_CONSTRAINT_VIOLATED ∨ e.code = ERROR_ARANGO_CONFLICT then
        if block then
          match acquire block rest with
          | none => none
          | some (res, n) => some (res, n + 1)
        else some (.ok false, 0)
      else some (.error e, 0)

/-! ## Result discriminators (used to state claims about exception classes) -/

/-- Does the computation fail with the spec taxonomy's `UnsupportedOperatorError`? -/
def raisesUnsupportedOperator {α : Type} : Except PyErr α → Bool
  | .error (.unsupportedOperatorError _) => true
  | _ => false

/-- Does the computation fail with Python's built-in `NotImplementedError`? -/
def raisesNotImplemented {α : Type} : Except PyErr α → Bool
  | .error (.notImplementedError _) => true
  | _ => false

/-- Does the computation fail with the spec taxonomy's `InvalidSortDirectionError`? -/
def raisesInvalidSortDirection {α : Type} : Except PyErr α → Bool
  | .error (.invalidSortDirectionError _) => true
  | _ => false

/-- Does the computation fail with `UniqueConstraintError` (exceptions.py)? -/
def raisesUniqueConstraint {α : Type} : Except PyErr α → Bool
  | .error (.uniqueConstraintError _) => true
  | _ => false

/-- Invariant of dot-collapsed paths: two adjacent characters are never both
dots. -/
def RDot (a b : Char) : Prop := ¬(a = '.' ∧ b = '.')

/-! ## Helper lemmas about the predicate compiler -/

theorem processOpsAux_error (instanceName field bvPre : String) :
    ∀ (pairs : List (String × Value)) (acc : List String × List (String × Value)) (e : PyErr),
      processOpsAux instanceName field bvPre acc pairs = .error e →
      ∃ msg, e = .notImplementedError msg := by
  intro pairs
  induction pairs with
  | nil => intro acc e h; simp [processOpsAux] at h
  | cons q rest ih =>
    intro acc e h
    obtain ⟨op, v⟩ := q
    rw [processOpsAux] at h
    split at h
    · injection h with h2
      exact ⟨_, h2.symm⟩
    · exact ih _ _ h

theorem processOpsAux_ok (instanceName field bvPre : String) :
    ∀ (pairs : List (String × Value)) (acc : List String × List (String × Value))
      (r : List String × List (String × Value)),
      processOpsAux instanceName field bvPre acc pairs = .ok r →
      ∀ q ∈ pairs, (assocFind utilsComparisonOperators q.1).isSome = true := by
  intro pairs
  induction pairs with
  | nil => intro acc r _ q hq; simp at hq
  | cons q0 rest ih =>
    intro acc r h q hq
    obtain ⟨op, v⟩ := q0
    rw [processOpsAux] at h
    split at h
    · exact absurd h (by simp)
    · rcases List.mem_cons.mp hq with rfl | hq'
      · rename_i tok hf
        simp [hf]
      · exact ih _ _ h q hq'

theorem buildFiltersAux_error (a : String) :
    ∀ (fs : List (String × FilterExpr)) (acc : List String × List (String × Value))
      (i : Nat) (e : PyErr),
      buildFiltersAux a acc i fs = .error e → ∃ msg, e = .notImplementedError msg := by
  intro fs
  induction fs with
  | nil => intro acc i e h; simp [buildFiltersAux] at h
  | cons p rest ih =>
    intro acc i e h
    obtain ⟨field, expr⟩ := p
    rw [buildFiltersAux] at h
    split at h
    · rename_i err heq
      injection h with h2
      exact h2 ▸ processOpsAux_error _ _ _ _ _ _ heq
    · exact ih _ _ _ h

theorem buildFiltersAux_ok (a : String) :
    ∀ (fs : List (String × FilterExpr)) (acc : List String × List (String × Value))
      (i : Nat) (r : List String × List (String × Value)),
      buildFiltersAux a acc i fs = .ok r →
      ∀ p ∈ fs, ∀ q ∈ exprItems p.2,
        (assocFind utilsComparisonOperators q.1).isSome = true := by
  intro fs
  induction fs with
  | nil => intro acc i r _ p hp; simp at hp
  | cons p0 rest ih =>
    intro acc i r h p hp
    obtain ⟨field, expr⟩ := p0
    rw [buildFiltersAux] at h
    split at h
    · exact absurd h (by simp)
    · rename_i acc2 heq
      rcases List.mem_cons.mp hp with rfl | hp'
      · exact processOpsAux_ok _ _ _ _ _ _ heq
      · exact ih _ _ _ h p hp'

theorem local_table_sub_operatorSymbols (op : String)
    (h : (assocFind utilsComparisonOperators op).isSome = true) : op ∈ operatorSymbols := by
  simp only [utilsComparisonOperators, assocFind] at h
  split_ifs at h with h1 h2 h3 h4 h5 h6
  · subst h1; decide
  · subst h2; decide
  · subst h3; decide
  · subst h4; decide
  · subst h5; decide
  · subst h6; decide
  · simp at h

theorem buildFiltersAux_congr (a : String) :
    ∀ (fs1 fs2 : List (String × FilterExpr)) (acc : List String × List (String × Value)) (i : Nat),
      fs1.map (fun p => (p.1, exprItems p.2)) = fs2.map (fun p => (p.1, exprItems p.2)) →
      buildFiltersAux a acc i fs1 = buildFiltersAux a acc i fs2 := by
  intro fs1
  induction fs1 with
  | nil => intro fs2 acc i h; cases fs2 with
    | nil => rfl
    | cons q t => simp at h
  | cons p rest ih =>
    intro fs2 acc i h
    cases fs2 with
    | nil => simp at h
    | cons q t =>
      simp only [List.map_cons, List.cons.injEq, Prod.mk.injEq] at h
      obtain ⟨⟨hf, he⟩, ht⟩ := h
      obtain ⟨f1, e1⟩ := p
      obtain ⟨f2, e2⟩ := q
      simp only at hf he
      rw [buildFiltersAux, buildFiltersAux, hf, he]
      cases hpo : processOpsAux a f2 ("field_" ++ toString i) acc (exprItems e2) with
      | error err => rfl
      | ok acc2 => exact ih _ _ _ ht

/-! ## Normalization lemmas for the field-path splitter -/

theorem collapse_cons : ∀ (x : Char) (rest : List Char),
    ∃ t, collapseDots (x :: rest) = x :: t
  | _, [] => ⟨[], rfl⟩
  | x, y :: rest => by
    by_cases h : x = '.' ∧ y = '.'
    · obtain ⟨t, ht⟩ := collapse_cons y rest
      exact ⟨t, by rw [collapseDots, if_pos h, ht, h.1, h.2]⟩
    · exact ⟨collapseDots (y :: rest), by rw [collapseDots, if_neg h]⟩

theorem collapse_chain : ∀ l : List Char, List.Chain' RDot (collapseDots l)
  | [] => by simp [collapseDots]
  | [c] => by simp [collapseDots]
  | a :: b :: rest => by
    by_cases h : a = '.' ∧ b = '.'
    · rw [collapseDots, if_pos h]
      exact collapse_chain (b :: rest)
    · rw [collapseDots, if_neg h]
      obtain ⟨t, ht⟩ := collapse_cons b rest
      rw [ht, List.chain'_cons]
      exact ⟨h, ht ▸ collapse_chain (b :: rest)⟩

theorem collapse_eq_self : ∀ l : List Char, List.Chain' RDot l → collapseDots l = l
  | [], _ => rfl
  | [_], _ => rfl
  | a :: b :: rest, h => by
    rw [List.chain'_cons] at h
    rw [collapseDots, if_neg h.1, collapse_eq_self (b :: rest) h.2]

theorem chain_stripDots (l : List Char) (h : List.Chain' RDot l) :
    List.Chain' RDot (stripDots l) := by
  have h1 : List.Chain' RDot (List.dropWhile isDot l) :=
    h.suffix (List.dropWhile_suffix isDot)
  have h2 := List.rdropWhile_prefix isDot (List.dropWhile isDot l)
  exact List.Chain'.prefix h1 h2

theorem dropWhile_rdropWhile_eq (l : List Char) :
    List.dropWhile isDot (List.rdropWhile isDot (List.dropWhile isDot l))
      = List.rdropWhile isDot (List.dropWhile isDot l) := by
  cases hz : List.rdropWhile isDot (List.dropWhile isDot l) with
  | nil => rfl
  | cons a t =>
    obtain ⟨s, hs⟩ := List.rdropWhile_prefix isDot (List.dropWhile isDot l)
    rw [hz] at hs
    have hs2 : List.dropWhile isDot l = a :: (t ++ s) := by rw [← hs]; rfl
    have ha : ¬ isDot a := by
      have hne : List.dropWhile isDot l ≠ [] := by rw [hs2]; simp
      have hnot := List.head_dropWhile_not isDot l hne
      simp only [hs2, List.head_cons] at hnot
      simp [hnot]
    rw [List.dropWhile_cons, if_neg ha]

theorem stripDots_idem (l : List Char) : stripDots (stripDots l) = stripDots l := by
  unfold stripDots
  rw [dropWhile_rdropWhile_eq l, List.rdropWhile_idempotent]

theorem normalize_fix (l : List Char) :
    stripDots (collapseDots (stripDots (collapseDots l))) = stripDots (collapseDots l) := by
  rw [collapse_eq_self _ (chain_stripDots _ (collapse_chain l)), stripDots_idem]

/-! ## Claim theorems -/

/-- C1 (counterexample): on the concrete filter `{"f": {"??": 1}}` whose
operator symbol `"??"` is outside every operator table, `build_filters` fails
with Python's built-in `NotImplementedError` and not with the
`UnsupportedOperatorError` the claim names (no such class exists in the
repository's exceptions.py). -/
theorem build_filters_no_unsupportedOperatorError :
    build_filters [("f", .ops [("??", .int 1)])] "i"
      = .error (.notImplementedError "Support for \x27??\x27 not implemented") ∧
    raisesUnsupportedOperator (build_filters [("f", .ops [("??", .int 1)])] "i") = false :=
  ⟨rfl, rfl⟩

/-- C1 (amended): for every filters mapping containing an entry whose operator
symbol is not in the supported operator table (the `Operators` symbols of
operators.py), `build_filters` fails with `NotImplementedError` — it never
silently ignores such an entry. -/
theorem build_filters_unknown_operator_fails
    (filters : List (String × FilterExpr)) (a : String)
    (h : ∃ p ∈ filters, ∃ q ∈ exprItems p.2, q.1 ∉ operatorSymbols) :
    raisesNotImplemented (build_filters filters a) = true := by
  obtain ⟨p, hp, q, hq, hop⟩ := h
  cases hr : build_filters filters a with
  | ok r =>
    exact absurd (local_table_sub_operatorSymbols q.1
      (buildFiltersAux_ok a filters ([], []) 0 r hr p hp q hq)) hop
  | error e =>
    obtain ⟨msg, rfl⟩ := buildFiltersAux_error a filters ([], []) 0 e hr
    simp [raisesNotImplemented, hr]

/-- C1 (witness): the amended theorem applied to the concrete filter
`{"f": {"??": 1}}`. -/
theorem build_filters_unknown_operator_fails_witness :
    raisesNotImplemented (build_filters [("f", .ops [("??", .int 1)])] "i") = true :=
  build_filters_unknown_operator_fails [("f", .ops [("??", .int 1)])] "i"
    ⟨("f", .ops [("??", .int 1)]), by simp, ("??", .int 1), by simp [exprItems], by decide⟩

/-- C2 (code bug): the membership, pattern and array-quantifier operators are
all in the supported operator table of operators.py, yet `build_filters`
rejects each of them with `NotImplementedError` instead of emitting a
comparison fragment — the inputs are the ones the repository's own
test_operators.py feeds through `Model.find`. -/
theorem build_filters_rejects_supported_operators :
    ("IN" ∈ operatorSymbols ∧ "NOT IN" ∈ operatorSymbols ∧ "LIKE" ∈ operatorSymbols ∧
     "NOT LIKE" ∈ operatorSymbols ∧ "=~" ∈ operatorSymbols ∧ "!~" ∈ operatorSymbols ∧
     "ANY ==" ∈ operatorSymbols ∧ "ALL IN" ∈ operatorSymbols ∧
     "NONE IN" ∈ operatorSymbols ∧ "ANY IN" ∈ operatorSymbols) ∧
    build_filters [("data.value", .ops [("IN", .listv [.int 2, .int 3])])] "i"
      = .error (.notImplementedError "Support for \x27IN\x27 not implemented") ∧
    build_filters [("data.value", .ops [("LIKE", .str "f%")])] "i"
      = .error (.notImplementedError "Support for \x27LIKE\x27 not implemented") ∧
    build_filters [("data.list", .ops [("ANY ==", .int 2)])] "i"
      = .error (.notImplementedError "Support for \x27ANY ==\x27 not implemented") ∧
    build_filters [("data.list", .ops [("ALL IN", .listv [.int 1, .int 2, .int 3])])] "i"
      = .error (.notImplementedError "Support for \x27ALL IN\x27 not implemented") :=
  ⟨by decide, rfl, rfl, rfl, rfl⟩

/-- C3 (code bug): on a cursor whose result sequence spans several server-side
batches, `to_list` returns only the currently fetched batch, not the fully
drained sequence. -/
theorem to_list_only_current_batch :
    to_list (⟨[1, 2], [[3, 4], [5]]⟩ : PyCursor Nat) = [1, 2] ∧
    allItems (⟨[1, 2], [[3, 4], [5]]⟩ : PyCursor Nat) = [1, 2, 3, 4, 5] ∧
    to_list (⟨[1, 2], [[3, 4], [5]]⟩ : PyCursor Nat)
      ≠ allItems (⟨[1, 2], [[3, 4], [5]]⟩ : PyCursor Nat) :=
  ⟨rfl, rfl, by decide⟩

/-- C4 (code bug): when the store reports a uniqueness violation (error code
1210) during the update issued by the persisted branch of `Model.save`, the
driver raises `DocumentUpdateError`, but the branch's `except` clause catches
only `DocumentReplaceError` — so the raw store error propagates untranslated
instead of `UniqueConstraintError`.  Had the same failure arrived as a
`DocumentReplaceError` (the class the source catches), it would have been
translated. -/
theorem save_update_unique_violation_untranslated :
    saveUpdateBranch "Identity" (.error (driverUpdateFailure 1210 "unique constraint violated"))
      = .error (.documentUpdateError 1210 "unique constraint violated") ∧
    raisesUniqueConstraint
      (saveUpdateBranch "Identity" (.error (driverUpdateFailure 1210 "unique constraint violated")))
      = false ∧
    saveUpdateBranch "Identity" (.error (.documentReplaceError 1210 "unique constraint violated"))
      = .error (.uniqueConstraintError
          "Unique constraint violated for \x27Identity\x27\nunique constraint violated") :=
  ⟨rfl, rfl, rfl⟩

/-- C6: a literal (non-mapping) filter value compiles to exactly the same
fragment list and bind-variable map as the explicit `{"==": value}`
operator-map, in any position of the filters mapping. -/
theorem build_filters_literal_is_implicit_eq (f : String) (v : Value) (a : String)
    (pre post : List (String × FilterExpr)) :
    build_filters (pre ++ (f, .lit v) :: post) a
      = build_filters (pre ++ (f, .ops [("==", v)]) :: post) a :=
  buildFiltersAux_congr a _ _ ([], []) 0 (by simp [exprItems])

theorem buildSortAux_invalid (a f d : String) (post : List (String × String))
    (hd : d ∉ DIRECTIONS) :
    ∀ (pre : List (String × String)) (i : Nat) (acc : List String × List (String × String)),
      (∀ q ∈ pre, q.2 ∈ DIRECTIONS) →
      buildSortAux a i acc (pre ++ (f, d) :: post)
        = .error (.valueError ("Invalid sort direction \x27" ++ d ++ "\x27 for field " ++ f)) := by
  intro pre
  induction pre with
  | nil =>
    intro i acc _
    simp only [List.nil_append]
    rw [buildSortAux, if_neg hd]
  | cons q rest ih =>
    intro i acc hpre
    obtain ⟨qf, qd⟩ := q
    have hqd : qd ∈ DIRECTIONS := hpre _ (List.mem_cons_self _ _)
    simp only [List.cons_append]
    rw [buildSortAux, if_pos hqd]
    exact ih _ _ (fun q hq => hpre q (List.mem_cons_of_mem _ hq))

/-- C5 (counterexample): on the concrete sort spec `[("name", "FOO")]`,
`build_sort` fails with Python's built-in `ValueError` and not with the
`InvalidSortDirectionError` the claim names (no such class exists in the
repository's exceptions.py). -/
theorem build_sort_no_invalidSortDirectionError :
    build_sort "i" [("name", "FOO")]
      = .error (.valueError "Invalid sort direction \x27FOO\x27 for field name") ∧
    raisesInvalidSortDirection (build_sort "i" [("name", "FOO")]) = false :=
  ⟨rfl, rfl⟩

/-- C5 (amended): for every sort specification containing a pair whose
direction is not one of the two recognized tokens, `build_sort` fails with
`ValueError` whose message names the offending field (stated for the first
such pair). -/
theorem build_sort_invalid_direction (a f d : String)
    (pre post : List (String × String))
    (hpre : ∀ q ∈ pre, q.2 ∈ DIRECTIONS) (hd : d ∉ DIRECTIONS) :
    build_sort a (pre ++ (f, d) :: post)
      = .error (.valueError ("Invalid sort direction \x27" ++ d ++ "\x27 for field " ++ f)) := by
  rw [build_sort, buildSortAux_invalid a f d post hd pre 0 ([], []) hpre]

/-- C5 (witness): the amended theorem applied to the concrete sort spec
`[("name", "FOO")]`. -/
theorem build_sort_invalid_direction_witness :
    "FOO" ∉ DIRECTIONS ∧
    build_sort "i" [("name", "FOO")]
      = .error (.valueError "Invalid sort direction \x27FOO\x27 for field name") :=
  ⟨by decide,
   build_sort_invalid_direction "i" "name" "FOO" [] [] (by simp) (by decide)⟩

/-- C7: `split_field` is total (it is a Lean function, so it cannot raise)
and, for every field-path — in particular ones with runs of consecutive
separators or leading/trailing separators — it returns exactly the same
bound-path expression and bind-variable map as for the corresponding
normalized path (separator runs collapsed, outer separators trimmed). -/
theorem split_field_normalized (name pre : String) :
    split_field (normalizePath name) pre = split_field name pre := by
  unfold split_field
  have h : stripDots (collapseDots (normalizePath name).toList)
      = stripDots (collapseDots name.toList) := by
    show stripDots (collapseDots (stripDots (collapseDots name.toList)))
        = stripDots (collapseDots name.toList)
    exact normalize_fix name.toList
  rw [h]

/-- C8: `find_one` issues `find` with limit 1 (limit 2 when
`raise_on_multiple`), fails with `ModelNotFoundError` on zero results, fails
with `MultipleModelsFoundError` on more than one result with
`raise_on_multiple`, and otherwise returns the first (decoded) result — i.e.
it coincides with the spec's description `findOneSpec` for every store
behaviour `fetch`. -/
theorem find_one_matches_spec {α β : Type} (clsName : String) (decode : α → β)
    (raiseOnMultiple : Bool) (fetch : Nat → List α) :
    find_one clsName decode raiseOnMultiple fetch
      = findOneSpec clsName decode raiseOnMultiple fetch := by
  unfold find_one findOneSpec
  cases raiseOnMultiple with
  | false =>
    cases h : fetch 1 with
    | nil => simp [h]
    | cons d rest => simp [h]
  | true =>
    cases h : fetch 2 with
    | nil => simp [h]
    | cons d rest =>
      simp only [if_true, h]
      cases rest with
      | nil => simp
      | cons d2 rest2 => simp

/-- C9: the blocking lock-acquire loop of the asyncer backend retries (one
poll-delay sleep per retry) exactly on the already-locked store error codes
(unique-constraint-violated 1210 or conflict 1200) and re-raises any other
store error immediately; the non-blocking variant returns `false` exactly on
those contended codes and `true` when the insert succeeds. -/
theorem acquire_retry_policy (e : ArangoErr) (rest : List (Except ArangoErr Unit)) (b : Bool) :
    (acquire b (.ok () :: rest) = some (.ok true, 0)) ∧
    (¬(e.code = ERROR_ARANGO_UNIQUE_CONSTRAINT_VIOLATED ∨ e.code = ERROR_ARANGO_CONFLICT) →
      acquire b (.error e :: rest) = some (.error e, 0)) ∧
    ((e.code = ERROR_ARANGO_UNIQUE_CONSTRAINT_VIOLATED ∨ e.code = ERROR_ARANGO_CONFLICT) →
      acquire false (.error e :: rest) = some (.ok false, 0)) ∧
    ((e.code = ERROR_ARANGO_UNIQUE_CONSTRAINT_VIOLATED ∨ e.code = ERROR_ARANGO_CONFLICT) →
      acquire true (.error e :: rest)
        = (acquire true rest).map (fun p => (p.1, p.2 + 1))) := by
  refine ⟨rfl, fun h => ?_, fun h => ?_, fun h => ?_⟩
  · rw [acquire, if_neg h]
  · rw [acquire, if_pos h]; rfl
  · rw [acquire, if_pos h]; rw [if_pos rfl]
    cases hr : acquire true rest with
    | none => rfl
    | some p => obtain ⟨res, n⟩ := p; rfl

/-- C9 (witness): the retry-policy theorem applied to concrete attempt
sequences — a contended non-blocking acquire returns `false`; a blocking
acquire that is contended once and then succeeds returns `true` after one
poll-delay sleep. -/
theorem acquire_retry_policy_witness :
    acquire false (.error ⟨1210, "unique constraint violated"⟩ :: []) = some (.ok false, 0) ∧
    acquire true (.error ⟨1200, "conflict"⟩ :: [.ok ()]) = some (.ok true, 1) :=
  ⟨(acquire_retry_policy ⟨1210, "unique constraint violated"⟩ [] false).2.2.1 (Or.inl rfl),
   by rw [(acquire_retry_policy ⟨1200, "conflict"⟩ [.ok ()] true).2.2.2 (Or.inr rfl)]; rfl⟩

/-- C10: for a Transient record (revision `""`) with no key set and a key
generator configured, `Model.save` skips the generator for edge models
(leaving the key unset so the store assigns it) but invokes it for non-edge
models, while `Graph.save` invokes it for edge models as well. -/
theorem save_key_generator_edge_policy (key rev keyGen : Option String) (g : String)
    (hkey : pyFalsyStr key = true) (hrev : rev = some "") (hgen : keyGen = some g) :
    (modelSaveAssignKey true rev key keyGen).invoked = false ∧
    (modelSaveAssignKey true rev key keyGen).key = key ∧
    modelSaveAssignKey false rev key keyGen = ⟨some g, true⟩ ∧
    graphSaveAssignKey rev key keyGen = ⟨some g, true⟩ := by
  subst hrev hgen
  have h2 : pyFalsyStr (some "") = true := rfl
  simp [modelSaveAssignKey, graphSaveAssignKey, hkey, h2]

/-- C10 (witness): the key-generator policy theorem applied to a record with
key `None`, revision `""` and a generator producing `"k1"`. -/
theorem save_key_generator_edge_policy_witness :
    (modelSaveAssignKey true (some "") none (some "k1")).invoked = false ∧
    modelSaveAssignKey false (some "") none (some "k1") = ⟨some "k1", true⟩ ∧
    graphSaveAssignKey (some "") none (some "k1") = ⟨some "k1", true⟩ :=
  ⟨(save_key_generator_edge_policy none (some "") (some "k1") "k1" rfl rfl rfl).1,
   (save_key_generator_edge_policy none (some "") (some "k1") "k1" rfl rfl rfl).2.2.1,
   (save_key_generator_edge_policy none (some "") (some "k1") "k1" rfl rfl rfl).2.2.2⟩

end Arangodantic
